import Mathlib

/-!
# Wassapi backend: shallow embedding and verification

This file embeds, in Lean, the parts of the Wassapi WhatsApp-gateway backend
(`index.js` and the session-storage service) that its specification makes
claims about: the wallet debit/refund discipline, the admission gates of the
outbound send endpoints, the bulk-send loop, the webhook retry loop and
payload composition, the `ready`-event handlers, and the auth-directory
backup/restore round trip.

Conventions of the embedding:
* JS numbers that hold IQD amounts are embedded as `Int` (every constant in
  the source is a whole number of IQD).
* A JS value that may be `undefined`/`null` is an `Option`; the JS `x || d`
  idiom (which also replaces a stored `0` by the default) is `jsNum`.
* Database side effects are explicit state passing over `St`; values that the
  handlers read from the database or from remote procedures (session row
  status, subscription check results, rate-limit counts, worker results) are
  supplied by an environment record `Env`, mirroring exactly what the source
  would receive from those calls.
* The browser worker (whatsapp-web.js client) is opaque in the source and is
  embedded as a record of response functions (`Worker`).
* Strings manipulated character-wise by the source are `List Char`.
-/

namespace Wassapi

/-- JS `x || d` on a possibly-missing number: `undefined`/`null` and `0` are
falsy, so both are replaced by the default. -/
def jsNum (v : Option Int) (d : Int) : Int :=
  match v with
  | none => d
  | some b => if b = 0 then d else b

/-- `listLeads pat s`: `pat` occurs at the very start of `s`. -/
def listLeads : List Char → List Char → Bool
  | [], _ => true
  | _ :: _, [] => false
  | a :: as, b :: bs => a = b && listLeads as bs

/-- `containsSub pat s`: `pat` occurs contiguously somewhere in `s`.
Embeds JS `s.includes(pat)`. -/
def containsSub (pat : List Char) : List Char → Bool
  | [] => listLeads pat []
  | c :: rest => listLeads pat (c :: rest) || containsSub pat rest

/-- Embeds `recipient.replace(/[^\d+]/g, '')`: keep only digits and `+`. -/
def stripNonDigitsPlus (s : List Char) : List Char :=
  s.filter (fun c => c.isDigit || c = '+')

/-- Embeds `.replace(/^\+/, '')`: drop a single leading `+`. -/
def dropLeadingPlus : List Char → List Char
  | '+' :: rest => rest
  | s => s

/-- The recipient normalization used on every send path:
`recipient.replace(/[^\d+]/g, '').replace(/^\+/, '')`. -/
def formatNumber (s : List Char) : List Char :=
  dropLeadingPlus (stripNonDigitsPlus s)

/-- Embeds the validation regex `/^\d{9,15}$/`. -/
def validNumber (s : List Char) : Bool :=
  s.all (fun c => c.isDigit) && decide (9 ≤ s.length) && decide (s.length ≤ 15)

/-- `MESSAGE_COST_IQD` from `index.js`. -/
def MESSAGE_COST_IQD : Int := 10

/-- `DEFAULT_WALLET_BALANCE` from `index.js`. -/
def DEFAULT_WALLET_BALANCE : Int := 1000

/-- `wallet_transactions.transaction_type`. -/
inductive TxnType
  | initial
  | debit
  | credit
deriving DecidableEq, Repr

/-- A `wallet_transactions` row (user/session ids are fixed by context). -/
structure Txn where
  txnType : TxnType
  amount : Int
  balanceBefore : Int
  balanceAfter : Int
  description : String
  referenceId : Option String
deriving DecidableEq, Repr

/-- The signed contribution of one ledger row to the wallet total. -/
def txnDelta (t : Txn) : Int :=
  match t.txnType with
  | .initial => t.amount
  | .credit => t.amount
  | .debit => -t.amount

/-- `initial + Σ credits − Σ debits` over a transaction list. -/
def ledgerTotal (l : List Txn) : Int :=
  (l.map txnDelta).sum

/-- An `automation_logs` row. `recipient` is used by single sends,
`recipientsList` by bulk sends (the source serializes it as JSON; we keep the
list itself, the serialization being injective). `errorMessages` models the
JSON list of per-recipient failures. -/
structure LogRow where
  logType : String
  recipient : Option (List Char)
  recipientsList : Option (List (List Char))
  message : List Char
  status : String
  errorMessages : Option (List (List Char × String))
deriving DecidableEq, Repr

/-- A webhook event as handed to `triggerWebhooks`: the webhook channel
(first argument, e.g. `otp`), the payload `event` field and the payload
`success` flag. -/
structure WEvent where
  channel : String
  event : String
  success : Bool
deriving DecidableEq, Repr

/-- `whatsapp_sessions.status`. -/
inductive SessStatus
  | initializing
  | qrPending
  | connecting
  | connected
  | disconnected
  | failed
deriving DecidableEq, Repr

/-- The externally observable database/registry state a request handler can
mutate, for one (user, session) pair.

`profile` embeds the `user_profiles` row: `none` = no row (a `.single()`
fetch errors), `some none` = row with `wallet_balance` NULL, `some (some b)`
= stored balance `b`. Row fields not read or written by any claim-relevant
path (phone number, QR payload, timestamps, connection events, delivery
listeners) are not tracked. -/
structure St where
  profile : Option (Option Int)
  txns : List Txn
  logs : List LogRow
  messagesUsed : Nat
  numbersUsed : Nat
  sessionStatus : SessStatus
  clientInMap : Bool
  apiKeyActive : Bool
  webhookEvents : List WEvent
  sendAttempts : List (List Char × List Char)
  deliveryRows : List (List Char)
deriving DecidableEq, Repr

/-- The stored balance as the JS expression `userProfile?.wallet_balance`
would see it. -/
def profileBalance (p : Option (Option Int)) : Option Int :=
  p.bind id

/-- Result of the `check_subscription_limits` remote procedure as consumed by
the handlers (`allowed`, `reason`, `subscription_id`). -/
structure SubCheck where
  allowed : Bool
  reason : String
  subscriptionId : Option Nat
deriving DecidableEq, Repr

/-- A `user_settings` rate-limit row. -/
structure RateSettings where
  perMinute : Int
  perHour : Int
  perDay : Int
deriving DecidableEq, Repr

/-- Defaults used when the user has no settings row. -/
def defaultRateSettings : RateSettings :=
  { perMinute := 10, perHour := 100, perDay := 1000 }

/-- The `automation_logs` window counts the three queries in `checkRateLimit`
return. -/
structure RateCounts where
  minuteCount : Int
  hourCount : Int
  dayCount : Int
deriving DecidableEq, Repr

/-- Outcome of `checkRateLimit`. -/
inductive RateResult
  | allowed
  | limited (reason : String) (limit : Int) (current : Int)
deriving DecidableEq, Repr

/-- Embeds `checkRateLimit` (index.js 2868-2944): the three window checks in
order, each of the form `count + messageCount > limit`. The DB-error
fallbacks of the source return `allowed` and are representable by an
environment whose counts are low. -/
def checkRateLimit (settings : Option RateSettings) (counts : RateCounts)
    (messageCount : Int) : RateResult :=
  let limits := settings.getD defaultRateSettings
  if limits.perMinute < counts.minuteCount + messageCount then
    .limited "rate_limit_minute" limits.perMinute counts.minuteCount
  else if limits.perHour < counts.hourCount + messageCount then
    .limited "rate_limit_hour" limits.perHour counts.hourCount
  else if limits.perDay < counts.dayCount + messageCount then
    .limited "rate_limit_day" limits.perDay counts.dayCount
  else .allowed

/-- Result of `deductBalance`. `fetchFailed` is the catch path when the
profile row is missing; the handlers treat both failure cases as a 402. -/
inductive DeductRes
  | ok (balanceBefore balanceAfter : Int)
  | insufficient (currentBalance : Int)
  | fetchFailed
deriving DecidableEq, Repr

/-- Embeds `deductBalance` (index.js 163-224): fetch the profile, coerce the
balance with `|| DEFAULT_WALLET_BALANCE` (note: a stored `0` is falsy and is
coerced to the default), check `currentBalance < MESSAGE_COST_IQD`, then
update the balance and append a debit row. -/
def deductBalance (st : St) (description : String) (referenceId : Option String) :
    DeductRes × St :=
  match st.profile with
  | none => (.fetchFailed, st)
  | some v =>
    let currentBalance := jsNum v DEFAULT_WALLET_BALANCE
    if currentBalance < MESSAGE_COST_IQD then
      (.insufficient currentBalance, st)
    else
      let newBalance := currentBalance - MESSAGE_COST_IQD
      let txn : Txn :=
        { txnType := .debit, amount := MESSAGE_COST_IQD,
          balanceBefore := currentBalance, balanceAfter := newBalance,
          description := description, referenceId := referenceId }
      (.ok currentBalance newBalance,
        { st with profile := some (some newBalance), txns := st.txns ++ [txn] })

/-- The opaque browser worker, embedded as response functions.

* `readyAt n` is the result of the n-th `isClientReady(client)` evaluation a
  handler makes (bulk sends re-check readiness each loop iteration; single
  sends only use `readyAt 0`).
* `hasInfo` is the truthiness of `client.info`.
* `readyAfterPoll` is the readiness outcome after the 15 s / 500 ms poll in
  `/api/v1/otp/send`.
* `getNumberId t` embeds `client.getNumberId(t)`: `.error m` a thrown error,
  `.ok none` a null result or one without `_serialized`, `.ok (some cid)` a
  resolved chat id.
* `send cid` embeds `client.sendMessage(cid, …)`: `.error m` a thrown error
  with message `m`, `.ok mid` success with an optional message id. -/
structure Worker where
  readyAt : Nat → Bool
  hasInfo : Bool
  readyAfterPoll : Bool
  getNumberId : List Char → Except String (Option (List Char))
  send : List Char → Except String (Option (List Char))

/-- `isClientReady(client)` at the first check of a handler. -/
def Worker.ready (w : Worker) : Bool := w.readyAt 0

/-- Everything a request handler reads from outside `St`: the clock, the
worker, the session row as the handler would fetch it, the on-demand
restoration outcome, and the subscription / rate-limit data the remote
procedures and queries would return. -/
structure Env where
  now : Nat
  worker : Worker
  dbSessionStatus : Option SessStatus
  minutesSinceUpdate : Int
  restoreOk : Bool
  subCheck : SubCheck
  rateSettings : Option RateSettings
  rateCounts : RateCounts

/-- An HTTP response, reduced to what the claims observe: the success body
fields, or a status code with a tag naming the return site. -/
inductive Resp
  | ok (balance : Int)
  | okBulk (sent failed : Nat) (balance totalCostField refunded : Int)
  | err (status : Nat) (tag : String)
deriving DecidableEq, Repr

/-- The HTTP status code of a response. -/
def respStatus : Resp → Nat
  | .ok _ => 200
  | .okBulk _ _ _ _ _ => 200
  | .err s _ => s

/-- The refund the bad-recipient and unresolved-recipient branches of
`send-otp` and `messages/send` perform: re-read the profile and, if it
exists, write back `balanceAfter + MESSAGE_COST_IQD` — without inserting any
`wallet_transactions` row (index.js 1062-1076, 1091-1105, 1116-1130,
1908-1922, 1935-1949, 1960-1974). -/
def refundSilent (st : St) (balanceAfter : Int) : St :=
  match st.profile with
  | some _ => { st with profile := some (some (balanceAfter + MESSAGE_COST_IQD)) }
  | none => st

/-- The refund the send-failure catch blocks perform: restore the balance
and append a matching credit row (index.js 1176-1201, 1800-1825,
2052-2077). -/
def refundWithTxn (st : St) (balanceAfter : Int) (description refId : String) : St :=
  match st.profile with
  | some _ =>
    { st with
      profile := some (some (balanceAfter + MESSAGE_COST_IQD)),
      txns := st.txns ++
        [{ txnType := .credit, amount := MESSAGE_COST_IQD,
           balanceBefore := balanceAfter,
           balanceAfter := balanceAfter + MESSAGE_COST_IQD,
           description := description, referenceId := some refId }] }
  | none => st

/-- The OTP message template: English when `language === 'en'`, Arabic
otherwise (a missing or empty `language` is falsy and defaults to `ar`). -/
def otpMessage (language : Option String) (otp : List Char) : List Char :=
  if language = some "en" then
    "Your verification code is: ".data ++ otp ++ "\nValid for 5 minutes.".data
  else
    "رمز التحقق الخاص بك هو: ".data ++ otp ++ "\nصالح لمدة 5 دقائق.".data

/-- Body of `POST /api/whatsapp/send-otp` and `POST /api/v1/otp/send`. -/
structure OtpReq where
  recipient : List Char
  otp : List Char
  language : Option String

/-- Embeds `POST /api/whatsapp/send-otp` (index.js 923-1232).

Stages, in source order: client lookup with on-demand restoration (928-964),
readiness with the 5-minute stuck check (967-1013), subscription gate (1016),
rate-limit gate (1026), wallet debit (1037), OTP template (1049-1055),
recipient normalization and validation with silent refund (1058-1081),
number-id resolution with silent refund (1087-1137), dispatch, success
bookkeeping and `otp_sent` webhook (1139-1171), and the failure catch with
ledgered refund, `otp_failed` webhook and `Session closed` cleanup
(1173-1227). A restoration failure is reported 503 after `restoreClient`
itself marked the session row `failed` (index.js 540-545). -/
def sendOtpDashboard (env : Env) (req : OtpReq) (st : St) : Resp × St :=
  -- stage 1: clients.get(sessionId), with on-demand restoration
  let stage1 : Except (Resp × St) St :=
    if st.clientInMap then .ok st
    else
      match env.dbSessionStatus with
      | some s =>
        if s = .connected then
          if env.restoreOk then .ok { st with clientInMap := true }
          else .error (.err 503 "restoring", { st with sessionStatus := .failed })
        else .error (.err 400 "session-bad", st)
      | none => .error (.err 404 "session-not-found", st)
  match stage1 with
  | .error r => r
  | .ok st =>
  -- stage 2: isClientReady, with the 5-minute stuck check
  if ¬ env.worker.ready then
    if ¬ env.worker.hasInfo then
      match env.dbSessionStatus with
      | some _ =>
        if 5 < env.minutesSinceUpdate then
          (.err 400 "init-failed",
            { st with clientInMap := false, sessionStatus := .disconnected })
        else (.err 503 "initializing", st)
      | none => (.err 503 "initializing", st)
    else
      (.err 400 "disconnected",
        { st with clientInMap := false, sessionStatus := .disconnected })
  else
  -- subscription gate
  if ¬ env.subCheck.allowed then (.err 403 "subscription-exceeded", st)
  else
  -- rate-limit gate
  match checkRateLimit env.rateSettings env.rateCounts 1 with
  | .limited reason _ _ => (.err 429 ("rate-limit:" ++ reason), st)
  | .allowed =>
  -- wallet debit
  match deductBalance st ("OTP sent to " ++ String.mk req.recipient)
      (some ("otp_" ++ toString env.now)) with
  | (.insufficient _, st) => (.err 402 "insufficient-balance", st)
  | (.fetchFailed, st) => (.err 402 "balance-error", st)
  | (.ok _ balanceAfter, st) =>
  let message := otpMessage req.language req.otp
  let formatted := formatNumber req.recipient
  if ¬ validNumber formatted then
    (.err 400 "bad-recipient", refundSilent st balanceAfter)
  else
    match env.worker.getNumberId formatted with
    | .ok none => (.err 400 "unreachable-recipient", refundSilent st balanceAfter)
    | .error _ => (.err 400 "unreachable-recipient", refundSilent st balanceAfter)
    | .ok (some chatId) =>
      let st := { st with sendAttempts := st.sendAttempts ++ [(chatId, message)] }
      match env.worker.send chatId with
      | .ok _ =>
        let st := { st with logs := st.logs ++
          [({ logType := "otp", recipient := some req.recipient,
              recipientsList := none, message := "OTP: ".data ++ req.otp,
              status := "sent", errorMessages := none } : LogRow)] }
        let st := match env.subCheck.subscriptionId with
          | some _ => { st with messagesUsed := st.messagesUsed + 1 }
          | none => st
        (.ok balanceAfter, { st with webhookEvents := st.webhookEvents ++
          [({ channel := "otp", event := "otp_sent", success := true } : WEvent)] })
      | .error m =>
        let st := refundWithTxn st balanceAfter
          ("Refund: Failed to send OTP to " ++ String.mk req.recipient)
          ("refund_otp_" ++ toString env.now)
        let st := { st with webhookEvents := st.webhookEvents ++
          [({ channel := "otp", event := "otp_failed", success := false } : WEvent)] }
        if containsSub "Session closed".data m.data then
          (.err 400 "session-closed",
            { st with clientInMap := false, sessionStatus := .disconnected })
        else (.err 500 m, st)

/-- Body of `POST /api/v1/messages/send` and `POST /api/whatsapp/test-message`. -/
structure MsgReq where
  recipient : List Char
  message : List Char

/-- Embeds `POST /api/v1/messages/send` (index.js 1846-2085).

Stages, in source order: required-field check (1850), client lookup (1854),
readiness (1859-1868), subscription gate (1871), rate-limit gate (1881),
wallet debit (1894), recipient normalization and validation with silent
refund (1904-1927), number-id resolution with silent refund (1931-1981),
dispatch, usage increment, log row and delivery-tracking row (1983-2043),
and the failure catch with ledgered refund and rethrow to 500 (2052-2080). -/
def messagesSend (env : Env) (req : MsgReq) (st : St) : Resp × St :=
  if req.recipient = [] ∨ req.message = [] then (.err 400 "missing-fields", st)
  else if ¬ st.clientInMap then (.err 404 "session-not-found", st)
  else if ¬ env.worker.ready then
    if ¬ env.worker.hasInfo then (.err 503 "initializing", st)
    else (.err 400 "disconnected", st)
  else if ¬ env.subCheck.allowed then (.err 403 "subscription-exceeded", st)
  else
  match checkRateLimit env.rateSettings env.rateCounts 1 with
  | .limited reason _ _ => (.err 429 ("rate-limit:" ++ reason), st)
  | .allowed =>
  match deductBalance st ("Message sent to " ++ String.mk req.recipient ++ " via API")
      (some ("api_" ++ toString env.now)) with
  | (.insufficient _, st) => (.err 402 "insufficient-balance", st)
  | (.fetchFailed, st) => (.err 402 "balance-error", st)
  | (.ok _ balanceAfter, st) =>
  let formatted := formatNumber req.recipient
  if ¬ validNumber formatted then
    (.err 400 "bad-recipient", refundSilent st balanceAfter)
  else
    match env.worker.getNumberId formatted with
    | .ok none => (.err 400 "unreachable-recipient", refundSilent st balanceAfter)
    | .error _ => (.err 400 "unreachable-recipient", refundSilent st balanceAfter)
    | .ok (some chatId) =>
      let st := { st with sendAttempts := st.sendAttempts ++ [(chatId, req.message)] }
      match env.worker.send chatId with
      | .ok mid =>
        let st := match env.subCheck.subscriptionId with
          | some _ => { st with messagesUsed := st.messagesUsed + 1 }
          | none => st
        let st := { st with logs := st.logs ++
          [({ logType := "api_message", recipient := some req.recipient,
              recipientsList := none, message := req.message,
              status := "sent", errorMessages := none } : LogRow)] }
        let st := match mid with
          | some m => { st with deliveryRows := st.deliveryRows ++ [m] }
          | none => st
        (.ok balanceAfter, st)
      | .error m =>
        (.err 500 m, refundWithTxn st balanceAfter
          ("Refund: Failed to send message to " ++ String.mk req.recipient ++ " via API")
          ("refund_api_" ++ toString env.now))

/-- The client-lookup stage of `POST /api/v1/otp/send` (index.js 1603-1654):
the 5-minute stuck check, then on-demand restoration when the row says
`connected` or `connecting`. -/
def v1OtpStage1 (env : Env) (st : St) : Except (Resp × St) St :=
  if st.clientInMap then .ok st
  else
    match env.dbSessionStatus with
    | some s =>
      if 5 < env.minutesSinceUpdate ∧ (s = .connected ∨ s = .connecting) then
        .error (.err 400 "session-timeout", { st with sessionStatus := .disconnected })
      else if s = .connected ∨ s = .connecting then
        if env.restoreOk then .ok { st with clientInMap := true }
        else .error (.err 503 "restore-failed", { st with sessionStatus := .failed })
      else .error (.err 400 "session-bad", st)
    | none => .error (.err 404 "session-not-found", st)

/-- The readiness stage of `POST /api/v1/otp/send` (index.js 1657-1709): the
5-minute stuck check, then the 15 s / 500 ms readiness poll. -/
def v1OtpStage2 (env : Env) (st : St) : Except (Resp × St) St :=
  if ¬ env.worker.ready then
    match env.dbSessionStatus with
    | some _ =>
      if 5 < env.minutesSinceUpdate then
        .error (.err 400 "init-timeout",
          { st with clientInMap := false, sessionStatus := .disconnected })
      else if env.worker.readyAfterPoll then .ok st
      else .error (.err 503 "initializing", st)
    | none =>
      if env.worker.readyAfterPoll then .ok st
      else .error (.err 503 "initializing", st)
  else .ok st

/-- Embeds `POST /api/v1/otp/send` (index.js 1595-1843).

Stages, in source order: required-field check (1599), client lookup
(`v1OtpStage1`), readiness (`v1OtpStage2`), wallet debit (1712), OTP template
(1723-1729), recipient normalization and validation — note: the 400 return at
1736-1739 issues no refund — number-id resolution (1745-1764, also without
refund), dispatch and log row (1766-1776). This handler performs no
subscription check and no rate-limit check.

After a successful dispatch the source evaluates
`subscriptionCheck.subscription_id` (1779), but `subscriptionCheck` is not
declared anywhere in this handler; per JS semantics this raises a
`ReferenceError: subscriptionCheck is not defined`, which the catch at 1800
handles exactly like a send failure: ledgered refund, `otp_failed` webhook,
rethrow, outer catch answers 500 with the error message. The same catch
handles a thrown `sendMessage`. -/
def v1OtpSend (env : Env) (req : OtpReq) (st : St) : Resp × St :=
  if req.recipient = [] ∨ req.otp = [] then (.err 400 "missing-fields", st)
  else
  -- client lookup with stuck check and on-demand restoration
  match v1OtpStage1 env st with
  | .error r => r
  | .ok st =>
  -- readiness with stuck check and poll
  match v1OtpStage2 env st with
  | .error r => r
  | .ok st =>
  match deductBalance st ("OTP sent to " ++ String.mk req.recipient ++ " via API")
      (some ("api_otp_" ++ toString env.now)) with
  | (.insufficient _, st) => (.err 402 "insufficient-balance", st)
  | (.fetchFailed, st) => (.err 402 "balance-error", st)
  | (.ok _ balanceAfter, st) =>
  let message := otpMessage req.language req.otp
  let formatted := formatNumber req.recipient
  if ¬ validNumber formatted then
    (.err 400 "bad-recipient", st)
  else
    match env.worker.getNumberId formatted with
    | .ok none => (.err 400 "unreachable-recipient", st)
    | .error _ => (.err 400 "unreachable-recipient", st)
    | .ok (some chatId) =>
      let st := { st with sendAttempts := st.sendAttempts ++ [(chatId, message)] }
      match env.worker.send chatId with
      | .ok _ =>
        let st := { st with logs := st.logs ++
          [({ logType := "otp", recipient := some formatted,
              recipientsList := none, message := "OTP: ".data ++ req.otp,
              status := "sent", errorMessages := none } : LogRow)] }
        -- `subscriptionCheck` is read here but is unbound: ReferenceError
        let st := refundWithTxn st balanceAfter
          ("Refund: Failed to send OTP to " ++ String.mk formatted ++ " via API")
          ("refund_api_otp_" ++ toString env.now)
        let st := { st with webhookEvents := st.webhookEvents ++
          [({ channel := "otp", event := "otp_failed", success := false } : WEvent)] }
        (.err 500 "subscriptionCheck is not defined", st)
      | .error m =>
        let st := refundWithTxn st balanceAfter
          ("Refund: Failed to send OTP to " ++ String.mk formatted ++ " via API")
          ("refund_api_otp_" ++ toString env.now)
        let st := { st with webhookEvents := st.webhookEvents ++
          [({ channel := "otp", event := "otp_failed", success := false } : WEvent)] }
        (.err 500 m, st)

/-- Embeds `POST /api/whatsapp/test-message` (index.js 4036-4145).

Stages, in source order: required-field check (4040), client lookup with a
restoring hint (4044-4060), readiness (4062-4070), wallet balance check —
read with `|| 0`, no debit yet (4073-4086) — recipient normalization and
chat-id fallback (4089-4090), best-effort number-id resolution (4093-4100),
dispatch (4103), and only then the debit, its ledger row and the log row
(4106-4132). There is no subscription gate and no rate-limit gate in this
handler. -/
def testMessage (env : Env) (req : MsgReq) (st : St) : Resp × St :=
  if req.recipient = [] ∨ req.message = [] then (.err 400 "missing-fields", st)
  else if ¬ st.clientInMap then
    if env.dbSessionStatus = some .connected then (.err 503 "restoring", st)
    else (.err 400 "session-not-found", st)
  else if ¬ env.worker.ready then
    if ¬ env.worker.hasInfo then (.err 503 "initializing", st)
    else (.err 400 "disconnected", st)
  else
  let currentBalance := (profileBalance st.profile).getD 0
  if currentBalance < MESSAGE_COST_IQD then (.err 402 "insufficient-balance", st)
  else
  let formatted := formatNumber req.recipient
  let chatId0 := if formatted.contains '@' then formatted else formatted ++ "@c.us".data
  let chatId :=
    match env.worker.getNumberId formatted with
    | .ok (some nid) => nid
    | .ok none => chatId0
    | .error _ => chatId0
  let st := { st with sendAttempts := st.sendAttempts ++ [(chatId, req.message)] }
  match env.worker.send chatId with
  | .error m => (.err 500 m, st)
  | .ok _ =>
    let newBalance := currentBalance - MESSAGE_COST_IQD
    let st := { st with
      profile := some (some newBalance),
      txns := st.txns ++
        [({ txnType := .debit, amount := MESSAGE_COST_IQD,
            balanceBefore := currentBalance, balanceAfter := newBalance,
            description := "Test message to " ++ String.mk formatted,
            referenceId := some ("test_msg_" ++ toString env.now) } : Txn)] }
    let st := { st with logs := st.logs ++
      [({ logType := "api_message", recipient := some formatted,
          recipientsList := none, message := req.message,
          status := "sent", errorMessages := none } : LogRow)] }
    (.ok newBalance, st)

/-- Body of `POST /api/whatsapp/send-announcement`. -/
structure AnnReq where
  recipients : List (List Char)
  message : List Char

/-- Accumulator of the per-recipient loop of `send-announcement`
(index.js 1332-1418): messages sent, per-recipient error entries (raw
recipient and an error tag), the accumulated refund, the evolving state, and
whether a `break` has stopped the loop. -/
structure AnnAcc where
  sent : Nat
  errors : List (List Char × String)
  refundAmount : Int
  st : St
  stopped : Bool
deriving Repr

/-- One iteration of the `send-announcement` loop (index.js 1337-1418), for
the recipient at 0-based position `idx`. In source order: the in-loop
readiness re-check with cleanup and `break` (1340-1354), normalization and
validation (1357-1368), number-id resolution (1371-1392), dispatch
(1394-1396), and the catch that refunds, detects `Session closed` (cleanup
and `break`) or records the raw error (1397-1417). Error tags stand for the
fixed error strings of the source. -/
def annStep (env : Env) (message : List Char) (idx : Nat) (recipient : List Char)
    (acc : AnnAcc) : AnnAcc :=
  if acc.stopped then acc
  else if ¬ env.worker.readyAt (idx + 1) then
    { acc with
      errors := acc.errors ++ [(recipient, "disconnected")],
      refundAmount := acc.refundAmount + MESSAGE_COST_IQD,
      st := { acc.st with clientInMap := false, sessionStatus := .disconnected },
      stopped := true }
  else
    let formatted := formatNumber recipient
    if ¬ validNumber formatted then
      { acc with
        errors := acc.errors ++ [(recipient, "invalid-format")],
        refundAmount := acc.refundAmount + MESSAGE_COST_IQD }
    else
      match env.worker.getNumberId formatted with
      | .ok none =>
        { acc with
          errors := acc.errors ++ [(recipient, "unresolved")],
          refundAmount := acc.refundAmount + MESSAGE_COST_IQD }
      | .error m =>
        { acc with
          errors := acc.errors ++ [(recipient, "resolve-error: " ++ m)],
          refundAmount := acc.refundAmount + MESSAGE_COST_IQD }
      | .ok (some chatId) =>
        let st := { acc.st with sendAttempts := acc.st.sendAttempts ++ [(chatId, message)] }
        match env.worker.send chatId with
        | .ok _ => { acc with sent := acc.sent + 1, st := st }
        | .error m =>
          if containsSub "Session closed".data m.data then
            { acc with
              refundAmount := acc.refundAmount + MESSAGE_COST_IQD,
              st := { st with clientInMap := false, sessionStatus := .disconnected },
              errors := acc.errors ++ [(recipient, "session-closed")],
              stopped := true }
          else
            { acc with
              refundAmount := acc.refundAmount + MESSAGE_COST_IQD,
              st := st,
              errors := acc.errors ++ [(recipient, m)] }

/-- Runs `annStep` over the recipients in order. -/
def annLoop (env : Env) (message : List Char) :
    List (List Char) → Nat → AnnAcc → AnnAcc
  | [], _, acc => acc
  | r :: rs, idx, acc => annLoop env message rs (idx + 1) (annStep env message idx r acc)

/-- Embeds `POST /api/whatsapp/send-announcement` (index.js 1235-1483).

Stages, in source order: client lookup (1240), readiness with cleanup
(1247-1266), subscription gate for `recipients.length` messages (1269),
rate-limit gate (1279), upfront balance check — read with `|| 0` — and debit
of the full total with one ledger row (1290-1330), the per-recipient loop
(1332-1418), a single compensating credit of the accumulated refund if
nonzero (1421-1439), the bulk log row (1442-1450), the usage increment by
`sent` (1455-1457), the `announcement_sent` webhook (1460-1469) and the 200
response whose `totalCost` field is `sent * MESSAGE_COST_IQD` (1470-1478). -/
def sendAnnouncement (env : Env) (req : AnnReq) (st : St) : Resp × St :=
  if ¬ st.clientInMap then (.err 404 "session-not-found", st)
  else if ¬ env.worker.ready then
    if ¬ env.worker.hasInfo then (.err 503 "initializing", st)
    else
      (.err 400 "disconnected",
        { st with clientInMap := false, sessionStatus := .disconnected })
  else if ¬ env.subCheck.allowed then (.err 403 "subscription-exceeded", st)
  else
  match checkRateLimit env.rateSettings env.rateCounts req.recipients.length with
  | .limited reason _ _ => (.err 429 ("rate-limit:" ++ reason), st)
  | .allowed =>
  let totalCost := req.recipients.length * MESSAGE_COST_IQD
  let currentBalance := (profileBalance st.profile).getD 0
  if currentBalance < totalCost then (.err 402 "insufficient-balance", st)
  else
  let newBalance := currentBalance - totalCost
  let st := { st with
    profile := some (some newBalance),
    txns := st.txns ++
      [({ txnType := .debit, amount := totalCost,
          balanceBefore := currentBalance, balanceAfter := newBalance,
          description := "Announcement to " ++ toString req.recipients.length ++ " recipients",
          referenceId := some ("announcement_" ++ toString env.now) } : Txn)] }
  let acc := annLoop env req.message req.recipients 0
    { sent := 0, errors := [], refundAmount := 0, st := st, stopped := false }
  let st := acc.st
  let st :=
    if 0 < acc.refundAmount then
      { st with
        profile := some (some (newBalance + acc.refundAmount)),
        txns := st.txns ++
          [({ txnType := .credit, amount := acc.refundAmount,
              balanceBefore := newBalance,
              balanceAfter := newBalance + acc.refundAmount,
              description := "Refund: Failed to send " ++ toString acc.errors.length ++ " messages",
              referenceId := some ("refund_announcement_" ++ toString env.now) } : Txn)] }
    else st
  let st := { st with logs := st.logs ++
    [({ logType := "announcement", recipient := none,
        recipientsList := some req.recipients, message := req.message,
        status := if 0 < acc.sent then "sent" else "failed",
        errorMessages := if acc.errors = [] then none else some acc.errors } : LogRow)] }
  let st :=
    if env.subCheck.subscriptionId.isSome ∧ 0 < acc.sent then
      { st with messagesUsed := st.messagesUsed + acc.sent }
    else st
  let st := { st with webhookEvents := st.webhookEvents ++
    [({ channel := "announcement", event := "announcement_sent",
        success := 0 < acc.sent } : WEvent)] }
  (.okBulk acc.sent acc.errors.length
    (if 0 < acc.refundAmount then newBalance + acc.refundAmount else newBalance)
    (acc.sent * MESSAGE_COST_IQD) acc.refundAmount, st)

/-! ## Webhook fan-out engine -/

/-- The retry-relevant columns of a `webhooks` row. `none` embeds a NULL
column. -/
structure WebhookCfg where
  maxRetries : Option Int
  retryDelaySeconds : Option Int
  retryOnFailure : Option Bool
deriving DecidableEq, Repr

/-- One observable step of `callWebhook`: a delivery attempt (with its
`webhook_logs` row data), an inter-attempt sleep, or an
`update_webhook_stats` call. -/
inductive WebStep
  | attempt (n : Nat) (success : Bool) (isRetryFlag : Bool)
  | delayMs (ms : Int)
  | statsUpdate (success : Bool)
deriving DecidableEq, Repr

/-- The retry loop body of `callWebhook` (index.js 3121-3179), recursing over
the remaining iterations of `for (attempt = 1; attempt <= maxRetries; …)`.
`ok n` is whether `makeWebhookRequest` succeeds on attempt `n`. On failure of
the last attempt the stats are updated and the error is rethrown (`Bool` =
whether the call returned rather than threw); between failed attempts the
delay is slept only when `retry_on_failure !== false`. -/
def callWebhookGo (delay : Int) (retryOn : Bool) (ok : Nat → Bool) (maxR : Nat) :
    Nat → Nat → List WebStep × Bool
  | _, 0 => ([], false)
  | attempt, fuel + 1 =>
    if ok attempt then
      ([.attempt attempt true (decide (1 < attempt)), .statsUpdate true], true)
    else
      let row : WebStep := .attempt attempt false (decide (1 < attempt))
      if attempt = maxR then ([row, .statsUpdate false], false)
      else
        let rest := callWebhookGo delay retryOn ok maxR (attempt + 1) fuel
        (row :: ((if retryOn then [WebStep.delayMs delay] else []) ++ rest.1), rest.2)

/-- Embeds `callWebhook` (index.js 3117-3180): `maxRetries` and the delay use
the `||` defaults 3 and 5 s (so a stored `0` also falls back to the default,
and a negative `max_retries` makes the loop run zero times). -/
def callWebhook (cfg : WebhookCfg) (ok : Nat → Bool) : List WebStep × Bool :=
  let maxR := (jsNum cfg.maxRetries 3).toNat
  let delay := jsNum cfg.retryDelaySeconds 5 * 1000
  callWebhookGo delay (cfg.retryOnFailure ≠ some false) ok maxR 1 maxR

/-- Number of delivery attempts recorded in a `callWebhook` trace. -/
def attemptCount (trace : List WebStep) : Nat :=
  (trace.filter fun s => match s with | .attempt _ _ _ => true | _ => false).length

/-- The inter-attempt sleeps recorded in a `callWebhook` trace. -/
def delayEntries (trace : List WebStep) : List Int :=
  trace.filterMap fun s => match s with | .delayMs ms => some ms | _ => none

/-- A JSON value (arrays are not needed by any payload the claims touch). -/
inductive JVal
  | jnull
  | jbool (b : Bool)
  | jnum (n : Int)
  | jstr (s : String)
  | jobj (fields : List (String × JVal))
deriving Repr

/-- First binding of a key in a JSON object field list. -/
def jlookup (k : String) (fs : List (String × JVal)) : Option JVal :=
  (fs.find? fun kv => kv.1 = k).map fun kv => kv.2

/-- Embeds the payload composition of `triggerWebhooks` (index.js 3102-3105):
the object spread `{...payload, ...custom}`. Keys of `payload` keep their
position but take the value from `custom` when present there; keys only in
`custom` are appended. This is a shallow, top-level merge. -/
def composePayload (payload custom : List (String × JVal)) :
    List (String × JVal) :=
  (payload.map fun kv => ((kv.1 : String), (jlookup kv.1 custom).getD kv.2)) ++
    custom.filter fun kv => (jlookup kv.1 payload).isNone

/-- Modelled from the spec: the deep merge the payload-composition sentence
describes — custom overlays win on every key conflict, recursively inside
nested objects; `fuel` bounds the nesting depth and any value at least the
depth of the inputs gives the described merge. This definition follows the
wording of the spec, not the source, and exists to be compared against
`composePayload`. -/
def deepMergeSpec : Nat → JVal → JVal → JVal
  | 0, _, c => c
  | fuel + 1, JVal.jobj p, JVal.jobj c =>
    JVal.jobj
      ((p.map fun kv =>
        match jlookup kv.1 c with
        | some cv => ((kv.1 : String), deepMergeSpec fuel kv.2 cv)
        | none => kv) ++
      c.filter fun kv => (jlookup kv.1 p).isNone)
  | _ + 1, _, c => c

/-- The engine-built payload for a successful dashboard OTP send, exactly as
constructed at index.js 1164-1171: `success`, `event`, `recipient` (the
formatted number), `otp`, `timestamp` — the `new Date().toISOString()`
value, passed in here — and `message`. -/
def otpSentPayload (recipient otp : List Char) (timestamp : String) :
    List (String × JVal) :=
  [("success", .jbool true), ("event", .jstr "otp_sent"),
   ("recipient", .jstr (String.mk recipient)), ("otp", .jstr (String.mk otp)),
   ("timestamp", .jstr timestamp), ("message", .jstr "OTP sent successfully")]

/-- The engine-built payload for a failed dashboard OTP send, exactly as
constructed at index.js 1204-1211; `errMsg` is the value of
`sendError.message || 'Failed to send OTP'`. -/
def otpFailedPayload (recipient otp : List Char) (timestamp errMsg : String) :
    List (String × JVal) :=
  [("success", .jbool false), ("event", .jstr "otp_failed"),
   ("recipient", .jstr (String.mk recipient)), ("otp", .jstr (String.mk otp)),
   ("timestamp", .jstr timestamp), ("error", .jstr errMsg)]

/-! ## `ready`-event handlers -/

/-- What a `ready` handler reads from outside `St`: the
`getActiveSubscription` result, the count of `connected` rows the restore
handler queries, whether the session-row status update succeeded, and whether
an active API key already exists. -/
structure ReadyEnv where
  activeSubscription : Option Nat
  connectedCount : Nat
  updateOk : Bool
  existingApiKey : Bool

/-- Embeds `initializeWalletBalance` (index.js 118-160): only a missing
profile row or a NULL `wallet_balance` is initialized to the default, with an
`initial` ledger row; a stored balance — including `0` — is left alone. -/
def initWalletBalance (st : St) : St :=
  match st.profile with
  | some (some _) => st
  | _ =>
    { st with
      profile := some (some DEFAULT_WALLET_BALANCE),
      txns := st.txns ++
        [({ txnType := .initial, amount := DEFAULT_WALLET_BALANCE,
            balanceBefore := 0, balanceAfter := DEFAULT_WALLET_BALANCE,
            description := "Initial wallet balance", referenceId := none } : Txn)] }

/-- Embeds the `ready` handler registered by `initializeClient`
(index.js 643-729): initialize the wallet, update the session row to
`connected`; when that update succeeds, call
`incrementSubscriptionUsage(id, 0, 1)` unconditionally whenever an active
subscription exists — there is no check of how many times `ready` has fired;
then generate an API key if none is active. The auth-directory backup, the
disconnect-other-sessions update and the inbound-message handler
registration touch no field tracked here. -/
def initOnReady (env : ReadyEnv) (st : St) : St :=
  let st := initWalletBalance st
  let st :=
    if env.updateOk then
      let st := { st with sessionStatus := .connected }
      match env.activeSubscription with
      | some _ => { st with numbersUsed := st.numbersUsed + 1 }
      | none => st
    else st
  if env.existingApiKey ∨ st.apiKeyActive then st else { st with apiKeyActive := true }

/-- Embeds the `ready` handler registered by `restoreClient`
(index.js 365-443): the `isResolved` guard makes any delivery after the first
a no-op; the first delivery stores the client, marks the row `connected` and
increments `numbers_used` only when an active subscription exists and the
user's `connected`-row count is exactly 1. (The source declares the `session`
lookup twice in this handler — a JS redeclaration slip — the model takes the
data flow as written.) The handler-local `isResolved` flag is the `Bool`
component. -/
def restoreOnReady (env : ReadyEnv) : Bool × St → Bool × St
  | (true, st) => (true, st)
  | (false, st) =>
    let st := { st with clientInMap := true, sessionStatus := .connected }
    let st :=
      match env.activeSubscription with
      | some _ =>
        if env.connectedCount = 1 then { st with numbersUsed := st.numbersUsed + 1 }
        else st
      | none => st
    (true, st)

/-! ## Session storage service (services/session-storage.js) -/

/-- One file of a local auth-directory tree: its path relative to the session
directory, as components, and its bytes. A tree is the list of such files, in
the order the recursive `getAllFiles` walk produces them. -/
structure FsFile where
  path : List String
  bytes : List Nat
deriving DecidableEq, Repr

/-- The object store: uploaded objects keyed by their full path components
(the first component is the session id). -/
abbrev Store := List (List String × List Nat)

/-- Upload with `upsert: true`: replace the object at the key, else append. -/
def storeUpsert (store : Store) (key : List String) (bytes : List Nat) : Store :=
  if (store.find? fun e => e.1 = key).isSome then
    store.map fun e => if e.1 = key then (key, bytes) else e
  else store ++ [(key, bytes)]

/-- Embeds `backupSession` (session-storage.js 50-92): every file of the
recursive `getAllFiles` enumeration is uploaded to
`<sessionId>/<relative path>` with upsert. -/
def backupSession (sessionId : String) (tree : List FsFile) (store : Store) : Store :=
  tree.foldl (fun acc f => storeUpsert acc (sessionId :: f.path) f.bytes) store

/-- The storage `list(sessionId)` call: the names of the immediate children
of the prefix — top-level files and top-level folders alike — without
duplicates. -/
def listChildren (store : Store) (sessionId : String) : List String :=
  (store.filterMap fun e =>
    match e.1 with
    | s :: n :: _ => if s = sessionId then some n else none
    | _ => none).dedup

/-- Exact-key download. -/
def storeDownload (store : Store) (key : List String) : Option (List Nat) :=
  (store.find? fun e => e.1 = key).map fun e => e.2

/-- Embeds `restoreSession` (session-storage.js 97-157): list the immediate
children of the session prefix, then for each entry download
`<sessionId>/<name>` and write it to `<name>` locally; a failing download
(which is what happens for a folder entry, since no object has that exact
key) is skipped with `continue`. Returns the restored local tree (`none`
when the listing is empty and the source returns `false` without writing
anything). -/
def restoreSession (sessionId : String) (store : Store) : Option (List FsFile) :=
  let names := listChildren store sessionId
  if names = [] then none
  else some <| names.filterMap fun n =>
    match storeDownload store [sessionId, n] with
    | some bytes => some ({ path := [n], bytes := bytes } : FsFile)
    | none => none

/-! ## Concrete fixtures used by the theorems -/

/-- A worker that is ready, resolves every number to `<digits>@c.us` and
sends successfully. -/
def okWorker : Worker :=
  { readyAt := fun _ => true, hasInfo := true, readyAfterPoll := true,
    getNumberId := fun t => .ok (some (t ++ "@c.us".data)),
    send := fun _ => .ok none }

/-- A benign environment: connected session row, allowed subscription with
subscription id 1, default rate settings, zero window counts. -/
def baseEnv : Env :=
  { now := 0, worker := okWorker, dbSessionStatus := some .connected,
    minutesSinceUpdate := 0, restoreOk := true,
    subCheck := { allowed := true, reason := "", subscriptionId := some 1 },
    rateSettings := none,
    rateCounts := { minuteCount := 0, hourCount := 0, dayCount := 0 } }

/-- A user with stored balance 1000 backed by one `initial` ledger row, a
registered ready client, and empty logs and counters. -/
def baseSt : St :=
  { profile := some (some 1000),
    txns := [{ txnType := .initial, amount := 1000, balanceBefore := 0,
               balanceAfter := 1000, description := "Initial wallet balance",
               referenceId := none }],
    logs := [], messagesUsed := 0, numbersUsed := 0,
    sessionStatus := .connected, clientInMap := true, apiKeyActive := true,
    webhookEvents := [], sendAttempts := [], deliveryRows := [] }

/-- An OTP request whose recipient normalizes to `123`, which fails
`/^\d{9,15}$/`. -/
def badOtpReq : OtpReq :=
  { recipient := "123".data, otp := "9999".data, language := none }

/-- A valid single-message request. -/
def msgReqFix : MsgReq :=
  { recipient := "9647812345678".data, message := "Hi".data }

/-- A single-message request with an invalid recipient. -/
def badMsgReq : MsgReq :=
  { recipient := "123".data, message := "Hi".data }

/-- A valid OTP request. -/
def otpReqFix : OtpReq :=
  { recipient := "9647812345678".data, otp := "1234".data, language := some "en" }

/-- `baseSt` with stored balance 5. -/
def fiveSt : St := { baseSt with profile := some (some 5) }

/-- `baseSt` with stored balance 0. -/
def zeroSt : St := { baseSt with profile := some (some 0) }

/-- An environment in which both metering gates would deny: the subscription
check is not allowed and every rate window is far beyond its default limit. -/
def gateFailEnv : Env :=
  { baseEnv with
    subCheck := { allowed := false, reason := "messages_limit_exceeded",
                  subscriptionId := some 1 },
    rateCounts := { minuteCount := 999, hourCount := 999, dayCount := 9999 } }

/-- An environment whose subscription check denies but whose rate windows are
clear. -/
def subFailEnv : Env :=
  { baseEnv with
    subCheck := { allowed := false, reason := "messages_limit_exceeded",
                  subscriptionId := some 1 } }

/-- The spec scenario worker: sending to the second bulk recipient raises
`Session closed`; everything else succeeds. -/
def annEnv : Env :=
  { baseEnv with worker := { okWorker with
      send := fun cid =>
        if cid = "9647812345679@c.us".data then .error "Session closed"
        else .ok none } }

/-- The spec scenario bulk request: three valid recipients. -/
def annReq : AnnReq :=
  { recipients := ["9647812345678".data, "9647812345679".data, "9647812345680".data],
    message := "hello".data }

/-- A webhook row with NULL retry columns except `retry_on_failure = false`. -/
def noRetryCfg : WebhookCfg :=
  { maxRetries := none, retryDelaySeconds := none, retryOnFailure := some false }

/-- An auth-directory tree with one top-level file and one file inside a
nested subdirectory. -/
def nestedTree : List FsFile :=
  [{ path := ["creds"], bytes := [1, 2] }, { path := ["sub", "db"], bytes := [3] }]

/-- A ready-handler environment: active subscription 1, the user's only
connected session, successful row update, API key already present. -/
def readyEnvFix : ReadyEnv :=
  { activeSubscription := some 1, connectedCount := 1, updateOk := true,
    existingApiKey := true }

/-- An engine-built payload with the standard `event`/`success`/`timestamp`
fields and a nested object. -/
def enginePayload : List (String × JVal) :=
  [("event", .jstr "otp_sent"), ("success", .jbool true),
   ("timestamp", .jstr "2026-01-01T00:00:00.000Z"),
   ("meta", .jobj [("a", .jnum 1), ("b", .jnum 2)])]

/-- A custom overlay whose nested object conflicts with the engine's on one
inner key only. -/
def customPayload : List (String × JVal) :=
  [("meta", .jobj [("a", .jnum 3)])]

/-- Observer for payload-composition results: the value under the `meta` key
of an object. -/
def metaOf : JVal → Option JVal
  | JVal.jobj fs => jlookup "meta" fs
  | _ => none

/-- Wallet conservation as the spec states it: the stored balance equals
`initial + Σ credits − Σ debits` over the ledger. -/
def conserves (st : St) : Prop :=
  profileBalance st.profile = some (ledgerTotal st.txns)

instance (st : St) : Decidable (conserves st) := by
  unfold conserves; infer_instance

/-! ## Claim theorems -/

/-- Claim C1: wallet conservation. The claim fails on the code: on
`POST /api/whatsapp/send-otp`, a recipient that fails validation is detected
only after `deductBalance` has debited 10 IQD and written a debit row; the
compensating refund then restores the stored balance directly without
writing any credit row. Starting from a conserving state with balance 1000,
the request leaves balance 1000 but a ledger totalling 990. -/
theorem c1_wallet_conservation_violated :
    conserves baseSt ∧
    (sendOtpDashboard baseEnv badOtpReq baseSt).1 = Resp.err 400 "bad-recipient" ∧
    profileBalance (sendOtpDashboard baseEnv badOtpReq baseSt).2.profile = some 1000 ∧
    ledgerTotal (sendOtpDashboard baseEnv badOtpReq baseSt).2.txns = 990 ∧
    ¬ conserves (sendOtpDashboard baseEnv badOtpReq baseSt).2 := by
  decide

/-- Claim C2, counterexample. On `POST /api/v1/messages/send` with balance
1000 and recipient `123`: the request fails as `bad-recipient`, yet the
transaction ledger has changed — a debit row was appended with no matching
credit — contradicting the claim that no wallet mutation occurs; and with
balance 5 and the same invalid recipient the request fails with 402 from the
wallet gate, showing recipient validation is evaluated after the wallet
debit, not second. -/
theorem c2_counterexample :
    (messagesSend baseEnv badMsgReq baseSt).1 = Resp.err 400 "bad-recipient" ∧
    profileBalance (messagesSend baseEnv badMsgReq baseSt).2.profile = some 1000 ∧
    (messagesSend baseEnv badMsgReq baseSt).2.txns ≠ baseSt.txns ∧
    (messagesSend baseEnv badMsgReq baseSt).2.txns =
      baseSt.txns ++
        [{ txnType := .debit, amount := 10, balanceBefore := 1000,
           balanceAfter := 990, description := "Message sent to 123 via API",
           referenceId := some "api_0" }] ∧
    (messagesSend baseEnv badMsgReq fiveSt).1 = Resp.err 402 "insufficient-balance" := by
  decide

/-- Claim C3, counterexample. On `POST /api/whatsapp/test-message` with a
denying subscription check and every rate window beyond its limit, the
request still returns 200, the message is dispatched, and the wallet is
debited — the handler consults neither gate. -/
theorem c3_counterexample :
    (testMessage gateFailEnv msgReqFix baseSt).1 = Resp.ok 990 ∧
    respStatus (testMessage gateFailEnv msgReqFix baseSt).1 ≠ 403 ∧
    respStatus (testMessage gateFailEnv msgReqFix baseSt).1 ≠ 429 ∧
    (testMessage gateFailEnv msgReqFix baseSt).2.sendAttempts.length = 1 ∧
    (testMessage gateFailEnv msgReqFix baseSt).2.txns =
      baseSt.txns ++
        [{ txnType := .debit, amount := 10, balanceBefore := 1000,
           balanceAfter := 990, description := "Test message to 9647812345678",
           referenceId := some "test_msg_0" }] := by
  decide

/-- Claim C4: the spec scenario `Session closed mid-bulk`. The claim is
right about intent but the code diverges: on `Session closed` at the second
recipient the loop `break`s without recording anything for the third,
never-attempted recipient, so the handler reports 1 error (not 2) and
refunds 10 IQD (not 20) — the user is charged 20 for one sent message while
the response's own `totalCost` field claims 10. Session status and
`messages_used` behave as the claim says. -/
theorem c4_session_closed_bulk_eval :
    sendAnnouncement annEnv annReq baseSt =
      (Resp.okBulk 1 1 980 10 10,
       { baseSt with
         profile := some (some 980),
         txns := baseSt.txns ++
           [{ txnType := .debit, amount := 30, balanceBefore := 1000,
              balanceAfter := 970, description := "Announcement to 3 recipients",
              referenceId := some "announcement_0" },
            { txnType := .credit, amount := 10, balanceBefore := 970,
              balanceAfter := 980, description := "Refund: Failed to send 1 messages",
              referenceId := some "refund_announcement_0" }],
         logs :=
           [{ logType := "announcement", recipient := none,
              recipientsList := some annReq.recipients, message := "hello".data,
              status := "sent",
              errorMessages := some [("9647812345679".data, "session-closed")] }],
         messagesUsed := 1,
         sessionStatus := .disconnected,
         clientInMap := false,
         webhookEvents :=
           [{ channel := "announcement", event := "announcement_sent", success := true }],
         sendAttempts :=
           [("9647812345678@c.us".data, "hello".data),
            ("9647812345679@c.us".data, "hello".data)] }) := by
  decide

/-- Claim C6: the insufficient-balance scenario. At the spec's own literal
input (balance 5) the claim holds: 402 and the state is untouched. But the
claim quantifies over every balance below the cost, and at stored balance 0
it fails: `deductBalance` coerces the falsy 0 to the 1000 default, the debit
succeeds with `balance_before` 1000, the message is sent, logged and counted. -/
theorem c6_zero_balance_eval :
    messagesSend baseEnv msgReqFix fiveSt = (Resp.err 402 "insufficient-balance", fiveSt) ∧
    (messagesSend baseEnv msgReqFix zeroSt).1 = Resp.ok 990 ∧
    (messagesSend baseEnv msgReqFix zeroSt).2.txns =
      zeroSt.txns ++
        [{ txnType := .debit, amount := 10, balanceBefore := 1000,
           balanceAfter := 990,
           description := "Message sent to 9647812345678 via API",
           referenceId := some "api_0" }] ∧
    (messagesSend baseEnv msgReqFix zeroSt).2.logs.length = 1 ∧
    (messagesSend baseEnv msgReqFix zeroSt).2.messagesUsed = 1 := by
  decide

/-- Claim C7, counterexample. A webhook with `retry_on_failure = false` and
NULL retry columns, against a destination that always fails, is attempted 3
times — not at most once; the flag only skips the inter-attempt sleep. -/
theorem c7_counterexample :
    attemptCount (callWebhook noRetryCfg (fun _ => false)).1 = 3 ∧
    ¬ attemptCount (callWebhook noRetryCfg (fun _ => false)).1 ≤ 1 ∧
    delayEntries (callWebhook noRetryCfg (fun _ => false)).1 = [] := by
  decide

/-- Claim C8: backup-then-restore round trip. The claim is right about
intent — backup uploads the tree recursively and restore even prepares
parent directories — but `restoreSession` lists only the immediate children
of the session prefix and downloads each as a single object, so a file
inside a nested subdirectory is never restored: the round trip of a tree
with a nested file returns only its top-level file. -/
theorem c8_nested_tree_not_restored :
    restoreSession "s1" (backupSession "s1" nestedTree []) =
      some [{ path := ["creds"], bytes := [1, 2] }] ∧
    restoreSession "s1" (backupSession "s1" nestedTree []) ≠ some nestedTree := by
  decide

/-- Claim C9, counterexample. The `ready` handler registered by
`initializeClient` calls `incrementSubscriptionUsage(id, 0, 1)`
unconditionally on every delivery, so two `ready` events for the same
session with an active subscription increment `numbers_used` twice, not
once. -/
theorem c9_counterexample :
    baseSt.numbersUsed = 0 ∧
    ((initOnReady readyEnvFix)^[2] baseSt).numbersUsed = 2 := by
  decide

/-- Claim C2, amended: on the two cited single-message sends —
`POST /api/whatsapp/send-otp` and `POST /api/v1/messages/send` — with a
present, ready client, the gates run in the order subscription → rate limit
→ wallet debit → recipient validation (validation last, not second). A
failure at the subscription, rate-limit or wallet gate returns its
structured reason with the state untouched; a bad-recipient failure is
detected only after the debit: it returns 400 with the debit row left in
the ledger, no compensating credit row, and the stored balance written back
to the coerced pre-debit balance — the prior stored balance, except that a
stored 0 or NULL was coerced to the 1000 default and is written back as
1000. -/
theorem c2_amended (env : Env) (reqM : MsgReq) (reqO : OtpReq) (st : St)
    (v : Option Int)
    (hrec : reqM.recipient ≠ []) (hmsg : reqM.message ≠ [])
    (hclient : st.clientInMap = true) (hready : env.worker.ready = true)
    (hprof : st.profile = some v) :
    (env.subCheck.allowed = false →
      messagesSend env reqM st = (Resp.err 403 "subscription-exceeded", st) ∧
      sendOtpDashboard env reqO st = (Resp.err 403 "subscription-exceeded", st)) ∧
    (∀ reason limit current, env.subCheck.allowed = true →
      checkRateLimit env.rateSettings env.rateCounts 1 = .limited reason limit current →
      messagesSend env reqM st = (Resp.err 429 ("rate-limit:" ++ reason), st) ∧
      sendOtpDashboard env reqO st = (Resp.err 429 ("rate-limit:" ++ reason), st)) ∧
    (env.subCheck.allowed = true →
      checkRateLimit env.rateSettings env.rateCounts 1 = .allowed →
      jsNum v DEFAULT_WALLET_BALANCE < MESSAGE_COST_IQD →
      messagesSend env reqM st = (Resp.err 402 "insufficient-balance", st) ∧
      sendOtpDashboard env reqO st = (Resp.err 402 "insufficient-balance", st)) ∧
    (env.subCheck.allowed = true →
      checkRateLimit env.rateSettings env.rateCounts 1 = .allowed →
      MESSAGE_COST_IQD ≤ jsNum v DEFAULT_WALLET_BALANCE →
      validNumber (formatNumber reqM.recipient) = false →
      messagesSend env reqM st =
        (Resp.err 400 "bad-recipient",
         { st with
           profile := some (some (jsNum v DEFAULT_WALLET_BALANCE)),
           txns := st.txns ++
             [{ txnType := .debit, amount := MESSAGE_COST_IQD,
                balanceBefore := jsNum v DEFAULT_WALLET_BALANCE,
                balanceAfter := jsNum v DEFAULT_WALLET_BALANCE - MESSAGE_COST_IQD,
                description := "Message sent to " ++ String.mk reqM.recipient ++ " via API",
                referenceId := some ("api_" ++ toString env.now) }] })) ∧
    (env.subCheck.allowed = true →
      checkRateLimit env.rateSettings env.rateCounts 1 = .allowed →
      MESSAGE_COST_IQD ≤ jsNum v DEFAULT_WALLET_BALANCE →
      validNumber (formatNumber reqO.recipient) = false →
      sendOtpDashboard env reqO st =
        (Resp.err 400 "bad-recipient",
         { st with
           profile := some (some (jsNum v DEFAULT_WALLET_BALANCE)),
           txns := st.txns ++
             [{ txnType := .debit, amount := MESSAGE_COST_IQD,
                balanceBefore := jsNum v DEFAULT_WALLET_BALANCE,
                balanceAfter := jsNum v DEFAULT_WALLET_BALANCE - MESSAGE_COST_IQD,
                description := "OTP sent to " ++ String.mk reqO.recipient,
                referenceId := some ("otp_" ++ toString env.now) }] })) := by
  refine ⟨fun hsub => ⟨?_, ?_⟩, fun reason limit current hsub hrate => ⟨?_, ?_⟩,
    fun hsub hrate hlt => ⟨?_, ?_⟩, fun hsub hrate hge hbad => ?_,
    fun hsub hrate hge hbad => ?_⟩
  · simp [messagesSend, hrec, hmsg, hclient, hready, hsub]
  · simp [sendOtpDashboard, hclient, hready, hsub]
  · simp [messagesSend, hrec, hmsg, hclient, hready, hsub, hrate]
  · simp [sendOtpDashboard, hclient, hready, hsub, hrate]
  · simp [messagesSend, deductBalance, hrec, hmsg, hclient, hready, hsub, hrate,
      hprof, hlt]
  · simp [sendOtpDashboard, deductBalance, hclient, hready, hsub, hrate, hprof, hlt]
  · have hblt : ¬ jsNum v DEFAULT_WALLET_BALANCE < MESSAGE_COST_IQD := not_lt.mpr hge
    simp [messagesSend, deductBalance, refundSilent, hrec, hmsg, hclient, hready,
      hsub, hrate, hprof, hblt, hbad, sub_add_cancel]
  · have hblt : ¬ jsNum v DEFAULT_WALLET_BALANCE < MESSAGE_COST_IQD := not_lt.mpr hge
    simp [sendOtpDashboard, deductBalance, refundSilent, hclient, hready,
      hsub, hrate, hprof, hblt, hbad, sub_add_cancel]

/-- Witness for `c2_amended` at a concrete input: a denying subscription
check yields 403 on both endpoints with the state untouched. -/
theorem c2_amended_witness :
    messagesSend subFailEnv msgReqFix baseSt =
      (Resp.err 403 "subscription-exceeded", baseSt) ∧
    sendOtpDashboard subFailEnv otpReqFix baseSt =
      (Resp.err 403 "subscription-exceeded", baseSt) :=
  (c2_amended subFailEnv msgReqFix otpReqFix baseSt (some 1000)
    (by decide) (by decide) rfl rfl rfl).1 rfl

/-- Every `.error` outcome of the client-lookup stage of
`POST /api/v1/otp/send` carries a status other than 403 and 429. -/
theorem v1OtpStage1_err (env : Env) (st : St) :
    ∀ resp s2, v1OtpStage1 env st = .error (resp, s2) →
      respStatus resp ≠ 403 ∧ respStatus resp ≠ 429 := by
  intro resp s2 h
  unfold v1OtpStage1 at h
  repeat' split at h
  all_goals simp_all [respStatus]
  all_goals (rcases h with ⟨hr, -⟩; subst hr; decide)

/-- Every `.error` outcome of the readiness stage of `POST /api/v1/otp/send`
carries a status other than 403 and 429. -/
theorem v1OtpStage2_err (env : Env) (st : St) :
    ∀ resp s2, v1OtpStage2 env st = .error (resp, s2) →
      respStatus resp ≠ 403 ∧ respStatus resp ≠ 429 := by
  intro resp s2 h
  unfold v1OtpStage2 at h
  repeat' split at h
  all_goals simp_all [respStatus]
  all_goals (rcases h with ⟨hr, -⟩; subst hr; decide)

/-- Claim C3, amended: `POST /api/v1/otp/send` and
`POST /api/whatsapp/test-message` consult neither the subscription gate nor
the rate-limit gate — their results are invariant under arbitrary changes to
the subscription-check result and the rate-limit data, and neither endpoint
can ever answer 403 or 429. -/
theorem c3_amended (env : Env) (sc : SubCheck) (rs : Option RateSettings)
    (rc : RateCounts) (reqO : OtpReq) (reqM : MsgReq) (st : St) :
    v1OtpSend { env with subCheck := sc, rateSettings := rs, rateCounts := rc } reqO st =
      v1OtpSend env reqO st ∧
    testMessage { env with subCheck := sc, rateSettings := rs, rateCounts := rc } reqM st =
      testMessage env reqM st ∧
    respStatus (v1OtpSend env reqO st).1 ≠ 403 ∧
    respStatus (v1OtpSend env reqO st).1 ≠ 429 ∧
    respStatus (testMessage env reqM st).1 ≠ 403 ∧
    respStatus (testMessage env reqM st).1 ≠ 429 := by
  have hv : respStatus (v1OtpSend env reqO st).1 ≠ 403 ∧
      respStatus (v1OtpSend env reqO st).1 ≠ 429 := by
    unfold v1OtpSend
    split
    · simp [respStatus]
    · rcases h1 : v1OtpStage1 env st with r1 | st1
      · obtain ⟨resp, s2⟩ := r1
        simp only [h1]
        simpa using v1OtpStage1_err env st resp s2 h1
      · simp only [h1]
        rcases h2 : v1OtpStage2 env st1 with r2 | st2
        · obtain ⟨resp, s2⟩ := r2
          simp only [h2]
          simpa using v1OtpStage2_err env st1 resp s2 h2
        · simp only [h2]
          repeat' split
          all_goals simp [respStatus]
  have ht : respStatus (testMessage env reqM st).1 ≠ 403 ∧
      respStatus (testMessage env reqM st).1 ≠ 429 := by
    unfold testMessage
    repeat' (split <;> try simp [respStatus])
    all_goals (rename_i heq
               repeat' split at heq
               all_goals simp_all [respStatus]
               all_goals omega)
  exact ⟨rfl, rfl, hv.1, hv.2, ht.1, ht.2⟩

/-- Claim C5: on `POST /api/v1/otp/send`, whenever the session gates pass,
the debit succeeds, the recipient is valid and resolvable, and the worker
send succeeds, the handler still ends in the failure path — the unbound
`subscriptionCheck` read raises after the log insert — so the caller gets
500 `subscriptionCheck is not defined` while the state shows: an
automation-log row with status `sent`, a net-unchanged balance (debit then
compensating 10 IQD refund credit), an `otp_failed` webhook event, and the
dispatched message recorded. -/
theorem c5_v1_otp_success_path (env : Env) (req : OtpReq) (st : St) (b : Int)
    (cid : List Char) (mid : Option (List Char))
    (hrec : req.recipient ≠ []) (hotp : req.otp ≠ [])
    (hclient : st.clientInMap = true) (hready : env.worker.ready = true)
    (hprof : st.profile = some (some b)) (hb : MESSAGE_COST_IQD ≤ b) (hb0 : b ≠ 0)
    (hvalid : validNumber (formatNumber req.recipient) = true)
    (hnid : env.worker.getNumberId (formatNumber req.recipient) = .ok (some cid))
    (hsend : env.worker.send cid = .ok mid) :
    (v1OtpSend env req st).1 = Resp.err 500 "subscriptionCheck is not defined" ∧
    (v1OtpSend env req st).2.logs = st.logs ++
      [{ logType := "otp", recipient := some (formatNumber req.recipient),
         recipientsList := none, message := "OTP: ".data ++ req.otp,
         status := "sent", errorMessages := none }] ∧
    profileBalance (v1OtpSend env req st).2.profile = some b ∧
    (v1OtpSend env req st).2.txns = st.txns ++
      [{ txnType := .debit, amount := MESSAGE_COST_IQD, balanceBefore := b,
         balanceAfter := b - MESSAGE_COST_IQD,
         description := "OTP sent to " ++ String.mk req.recipient ++ " via API",
         referenceId := some ("api_otp_" ++ toString env.now) },
       { txnType := .credit, amount := MESSAGE_COST_IQD,
         balanceBefore := b - MESSAGE_COST_IQD, balanceAfter := b,
         description := "Refund: Failed to send OTP to " ++
           String.mk (formatNumber req.recipient) ++ " via API",
         referenceId := some ("refund_api_otp_" ++ toString env.now) }] ∧
    (v1OtpSend env req st).2.webhookEvents = st.webhookEvents ++
      [{ channel := "otp", event := "otp_failed", success := false }] ∧
    (v1OtpSend env req st).2.sendAttempts = st.sendAttempts ++
      [(cid, otpMessage req.language req.otp)] ∧
    (v1OtpSend env req st).2.messagesUsed = st.messagesUsed := by
  have hblt : ¬ b < MESSAGE_COST_IQD := not_lt.mpr hb
  simp [v1OtpSend, v1OtpStage1, v1OtpStage2, deductBalance, jsNum, refundWithTxn,
    profileBalance, hrec, hotp, hclient, hready, hprof, hb0, hvalid, hnid, hsend,
    hblt, sub_add_cancel]

/-- Witness for `c5_v1_otp_success_path` at a concrete input: a fully
successful dispatch still answers 500. -/
theorem c5_v1_otp_success_path_witness :
    (v1OtpSend baseEnv otpReqFix baseSt).1 =
      Resp.err 500 "subscriptionCheck is not defined" :=
  (c5_v1_otp_success_path baseEnv otpReqFix baseSt 1000 ("9647812345678@c.us".data)
    none (by decide) (by decide) rfl rfl rfl (by decide) (by decide) (by decide)
    rfl rfl).1

/-- Attempt-count bound and delay discipline of the `callWebhook` retry
loop, by induction on the remaining iterations. -/
theorem callWebhookGo_spec (delay : Int) (retryOn : Bool) (ok : Nat → Bool) (maxR : Nat) :
    ∀ fuel attempt,
      attemptCount (callWebhookGo delay retryOn ok maxR attempt fuel).1 ≤ fuel ∧
      (∀ ms ∈ delayEntries (callWebhookGo delay retryOn ok maxR attempt fuel).1, ms = delay) ∧
      (retryOn = false → delayEntries (callWebhookGo delay retryOn ok maxR attempt fuel).1 = [])
  | 0, attempt => by simp [callWebhookGo, attemptCount, delayEntries]
  | fuel + 1, attempt => by
    have ih := callWebhookGo_spec delay retryOn ok maxR fuel (attempt + 1)
    unfold callWebhookGo
    by_cases hok : ok attempt = true
    · simp [hok, attemptCount, delayEntries]
    · simp only [hok, Bool.false_eq_true, if_false]
      by_cases hlast : attempt = maxR
      · simp [hlast, attemptCount, delayEntries]
      · simp only [hlast, if_false]
        cases retryOn with
        | true =>
          refine ⟨?_, ?_, ?_⟩
          · simp only [attemptCount, List.filter_cons, List.filter_append]
            simp only [attemptCount] at ih
            simp [Nat.add_comm, ih.1]
            omega
          · intro ms hms
            simp only [delayEntries, List.filterMap_cons, List.filterMap_append] at hms ⊢
            simp at hms
            rcases hms with h | h
            · exact h
            · exact ih.2.1 ms (by simpa [delayEntries] using h)
          · intro hfalse; exact absurd hfalse (by simp)
        | false =>
          refine ⟨?_, ?_, ?_⟩
          · simp only [attemptCount, List.filter_cons, List.filter_append]
            simp only [attemptCount] at ih
            simp
            omega
          · intro ms hms
            simp only [delayEntries, List.filterMap_cons, List.filterMap_append] at hms ⊢
            simp at hms
            exact ih.2.1 ms (by simpa [delayEntries] using hms)
          · intro _
            simp only [delayEntries, List.filterMap_cons]
            simp
            have := ih.2.2 rfl
            simpa [delayEntries] using this

/-- Claim C7, amended: for each (webhook, event), `callWebhook` makes at most
`max_retries` (`||`-default 3) attempts; every sleep between consecutive
attempts equals `retry_delay_seconds` (`||`-default 5) in milliseconds; and
`retry_on_failure = false` does not reduce the number of attempts — it only
eliminates the inter-attempt sleeps. -/
theorem c7_amended (cfg : WebhookCfg) (ok : Nat → Bool) :
    attemptCount (callWebhook cfg ok).1 ≤ (jsNum cfg.maxRetries 3).toNat ∧
    (∀ ms ∈ delayEntries (callWebhook cfg ok).1,
      ms = jsNum cfg.retryDelaySeconds 5 * 1000) ∧
    ((cfg.retryOnFailure = some false) → delayEntries (callWebhook cfg ok).1 = []) := by
  unfold callWebhook
  have h := callWebhookGo_spec (jsNum cfg.retryDelaySeconds 5 * 1000)
    (cfg.retryOnFailure ≠ some false) ok (jsNum cfg.maxRetries 3).toNat
    (jsNum cfg.maxRetries 3).toNat 1
  refine ⟨h.1, h.2.1, fun hfalse => h.2.2 ?_⟩
  simp [hfalse]

/-- Witness for `c7_amended` at a concrete input: with NULL retry columns
and `retry_on_failure = false`, at most 3 attempts and no sleeps. -/
theorem c7_amended_witness :
    attemptCount (callWebhook noRetryCfg (fun _ => false)).1 ≤ 3 ∧
    delayEntries (callWebhook noRetryCfg (fun _ => false)).1 = [] :=
  ⟨(c7_amended noRetryCfg (fun _ => false)).1,
   (c7_amended noRetryCfg (fun _ => false)).2.2 rfl⟩

/-- `initWalletBalance` never touches `numbers_used`. -/
theorem initWalletBalance_numbersUsed (st : St) :
    (initWalletBalance st).numbersUsed = st.numbersUsed := by
  unfold initWalletBalance
  split <;> rfl

/-- One delivery of `ready` on the `initializeClient` path increments
`numbers_used` by exactly one when the row update succeeds and a
subscription is active. -/
theorem initOnReady_numbersUsed (env : ReadyEnv) (st : St) (sid : Nat)
    (hsub : env.activeSubscription = some sid) (hupd : env.updateOk = true) :
    (initOnReady env st).numbersUsed = st.numbersUsed + 1 := by
  unfold initOnReady
  simp only [hupd, hsub, if_true]
  split <;> simp [initWalletBalance_numbersUsed]

/-- Claim C9, amended: with an active subscription and a successful row
update, n `ready` deliveries on the `initializeClient` path increment
`numbers_used` by exactly n (once per event); on the `restoreClient` path
the `isResolved` guard makes n ≥ 1 deliveries increment exactly once when
the connected-row count is 1, and never otherwise. -/
theorem c9_amended (env : ReadyEnv) (st : St) (n : Nat) (sid : Nat)
    (hsub : env.activeSubscription = some sid) (hupd : env.updateOk = true)
    (hn : 1 ≤ n) :
    ((initOnReady env)^[n] st).numbersUsed = st.numbersUsed + n ∧
    ((restoreOnReady env)^[n] (false, st)).2.numbersUsed =
      st.numbersUsed + (if env.connectedCount = 1 then 1 else 0) := by
  constructor
  · clear hn
    induction n with
    | zero => simp
    | succ m ih =>
      rw [Function.iterate_succ_apply', initOnReady_numbersUsed env _ sid hsub hupd, ih]
      omega
  · obtain ⟨m, rfl⟩ : ∃ m, n = m + 1 := ⟨n - 1, by omega⟩
    rw [Function.iterate_succ_apply, Function.iterate_fixed rfl]
    simp only [restoreOnReady, hsub]
    split <;> simp

/-- Witness for `c9_amended` at a concrete input: one event, one increment
on each path. -/
theorem c9_amended_witness :
    ((initOnReady readyEnvFix)^[1] baseSt).numbersUsed = baseSt.numbersUsed + 1 ∧
    ((restoreOnReady readyEnvFix)^[1] (false, baseSt)).2.numbersUsed =
      baseSt.numbersUsed + (if readyEnvFix.connectedCount = 1 then 1 else 0) :=
  c9_amended readyEnvFix baseSt 1 1 rfl rfl (by decide)

/-- Claim C10, counterexample. At an engine payload whose `meta` object
holds keys `a` and `b` and a custom overlay whose `meta` holds only `a`, the
engine composition (`{...payload, ...custom}`) replaces the whole nested
object — key `b` is lost — whereas the deep merge the claim describes keeps
it; the two composition results differ. -/
theorem c10_counterexample :
    jlookup "meta" (composePayload enginePayload customPayload) =
      some (JVal.jobj [("a", JVal.jnum 3)]) ∧
    deepMergeSpec 2 (JVal.jobj enginePayload) (JVal.jobj customPayload) =
      JVal.jobj
        [("event", JVal.jstr "otp_sent"), ("success", JVal.jbool true),
         ("timestamp", JVal.jstr "2026-01-01T00:00:00.000Z"),
         ("meta", JVal.jobj [("a", JVal.jnum 3), ("b", JVal.jnum 2)])] ∧
    JVal.jobj (composePayload enginePayload customPayload) ≠
      deepMergeSpec 2 (JVal.jobj enginePayload) (JVal.jobj customPayload) := by
  refine ⟨rfl, rfl, fun h => ?_⟩
  have h2 := congrArg metaOf h
  simp [metaOf, composePayload, deepMergeSpec, enginePayload, customPayload,
    jlookup] at h2

/-- `jlookup` after a cons. -/
theorem jlookup_cons (k : String) (a : String × JVal) (l : List (String × JVal)) :
    jlookup k (a :: l) = if a.1 = k then some a.2 else jlookup k l := by
  unfold jlookup
  rw [List.find?_cons]
  by_cases h : a.1 = k <;> simp [h]

/-- `jlookup` over an append takes the first list when it binds the key. -/
theorem jlookup_append (k : String) (xs ys : List (String × JVal)) :
    jlookup k (xs ++ ys) = ((jlookup k xs).orElse fun _ => jlookup k ys) := by
  unfold jlookup
  rw [List.find?_append]
  cases List.find? (fun kv => kv.1 = k) xs <;> simp

/-- Looking up in the overridden copy of the engine payload gives the
override of the original binding. -/
theorem jlookup_map_override (k : String) (c : List (String × JVal)) :
    ∀ p : List (String × JVal),
      jlookup k (p.map fun kv => ((kv.1 : String), (jlookup kv.1 c).getD kv.2)) =
        (jlookup k p).map fun v => (jlookup k c).getD v
  | [] => rfl
  | a :: p => by
    rw [List.map_cons, jlookup_cons, jlookup_cons]
    by_cases h : a.1 = k
    · subst h; simp
    · simp only [h, if_false]
      exact jlookup_map_override k c p

/-- Filtering out the keys the engine payload binds does not change lookups
of keys it does not bind. -/
theorem jlookup_filter_of_none (k : String) (p : List (String × JVal))
    (hk : jlookup k p = none) :
    ∀ c : List (String × JVal),
      jlookup k (c.filter fun kv => (jlookup kv.1 p).isNone) = jlookup k c
  | [] => rfl
  | a :: c => by
    rw [List.filter_cons]
    by_cases h : a.1 = k
    · have hkeep : (jlookup a.1 p).isNone = true := by rw [h, hk]; rfl
      rw [if_pos hkeep, jlookup_cons, jlookup_cons]
      simp [h]
    · by_cases hkeep : (jlookup a.1 p).isNone = true
      · rw [if_pos hkeep, jlookup_cons, jlookup_cons]
        simp only [h, if_false]
        exact jlookup_filter_of_none k p hk c
      · rw [if_neg hkeep, jlookup_cons]
        simp only [h, if_false]
        exact jlookup_filter_of_none k p hk c

/-- Claim C10, amended: the composition is the shallow spread
`{...payload, ...custom}` — for every top-level key, the composed value is
the custom one whenever custom binds the key (replacing any nested engine
content under it wholesale, so engine keys inside nested objects are lost
rather than deep-merged), and the engine one otherwise. The embedded
engine-built OTP payloads bind `event`, `success` and `timestamp` (the
`new Date().toISOString()` value) at top level, so by the composition rule
each survives exactly when the custom overlay does not bind that key. -/
theorem c10_amended (p c : List (String × JVal)) (k : String) :
    (jlookup k (composePayload p c) =
      match jlookup k p with
      | some v => some ((jlookup k c).getD v)
      | none => jlookup k c) ∧
    (∀ (rec otp : List Char) (ts : String),
      jlookup "event" (otpSentPayload rec otp ts) = some (JVal.jstr "otp_sent") ∧
      jlookup "success" (otpSentPayload rec otp ts) = some (JVal.jbool true) ∧
      jlookup "timestamp" (otpSentPayload rec otp ts) = some (JVal.jstr ts)) ∧
    (∀ (rec otp : List Char) (ts e : String),
      jlookup "event" (otpFailedPayload rec otp ts e) = some (JVal.jstr "otp_failed") ∧
      jlookup "success" (otpFailedPayload rec otp ts e) = some (JVal.jbool false) ∧
      jlookup "timestamp" (otpFailedPayload rec otp ts e) = some (JVal.jstr ts)) := by
  refine ⟨?_, fun rec otp ts => ⟨rfl, rfl, rfl⟩, fun rec otp ts e => ⟨rfl, rfl, rfl⟩⟩
  unfold composePayload
  rw [jlookup_append, jlookup_map_override]
  cases hp : jlookup k p with
  | some v => simp
  | none =>
    simp only [Option.map_none, Option.none_orElse]
    exact jlookup_filter_of_none k p hp c

end Wassapi
